import Mathlib

/-!
Verification of the useradm HTTP API handlers (src/api/http/api_useradm.go).

The Go handlers are shallowly embedded as pure Lean functions.  Each handler
receives, besides the request data, the outcome of every collaborator call it
may make (the parsed body, the application-layer result, the store result) and
produces a trace: the ordered list of response events it performs on the
ResponseWriter together with the ordered list of collaborator invocations it
makes.  Distinguished Go error values compared by identity in the source are
modelled as distinct constructors of one error type.
-/

namespace Useradm

/-- Distinguished error values of the Go program.  Constructors mirror the
sentinel errors compared by identity in the handlers; wrap models
errors.Wrap, which produces a fresh error never equal to any sentinel;
errMsg models errors.New at the use site. -/
inductive GoError where
  | errAuthHeader
  | errApiUserNotFound
  | errUnauthorized
  | errTenantAccountSuspended
  | errDuplicateEmail
  | errStoreUserNotFound
  | errPasswordTooShort
  | errMsg (msg : String)
  | wrap (msg : String) (inner : GoError)
deriving Repr, DecidableEq

/-- Identity record attached to a context by the go-lib-micro identity
package; getTenantContext only sets the Tenant field. -/
structure Identity where
  subject : String := ""
  tenant : String := ""
  isUser : Bool := false
  isDevice : Bool := false
deriving Repr, DecidableEq

/-- Go context.Context as the handlers use it: it may be nil, it may be the
background context, it may carry an identity pushed by identity.WithContext,
or it may be an arbitrary request context (tagged). -/
inductive GoContext where
  | nil
  | background
  | withIdentity (parent : GoContext) (id : Identity)
  | other (tag : String)
deriving Repr, DecidableEq

/-- identity.FromContext: the identity most recently attached, if any. -/
def identityFromContext : GoContext → Option Identity
  | .withIdentity _ id => some id
  | _ => none

/-- model.User as the handlers touch it (only ID is read, for the Location
header; the rest is carried opaquely). -/
structure User where
  id : String
  email : String := ""
  password : String := ""
deriving Repr, DecidableEq

/-- model.UserInternal carried opaquely through CreateTenantUserHandler. -/
structure UserInternal where
  email : String := ""
  password : String := ""
deriving Repr, DecidableEq

/-- model.UserUpdate carried opaquely through UpdateUserHandler. -/
structure UserUpdate where
  email : String := ""
  password : String := ""
deriving Repr, DecidableEq

/-- jwt token produced by Login, carried opaquely to SignToken. -/
structure Token where
  subject : String := ""
  tenant : String := ""
deriving Repr, DecidableEq

/-- Settings payload: an opaque tenant-scoped map. -/
abbrev Settings := List (String × String)

/-- JSON bodies the handlers serialize with WriteJson. -/
inductive JsonBody where
  | user (u : User)
  | users (l : List User)
  | settings (s : Settings)
deriving Repr, DecidableEq

/-- One operation performed on the ResponseWriter.  restErr models
rest_utils.RestErrWithLog (writes the given status with the error as body);
restErrInternal models rest_utils.RestErrWithLogInternal (writes 500 with an
opaque body). -/
inductive RespEvent where
  | setHeader (k v : String)
  | addHeader (k v : String)
  | writeHeader (status : Nat)
  | writeJson (body : JsonBody)
  | writeBody (raw : String)
  | restErr (status : Nat) (e : GoError)
  | restErrInternal (e : GoError)
deriving Repr, DecidableEq

/-- The HTTP status an event writes, if any; a body write with no prior
explicit status is an implicit 200 in Go, recorded here as 200. -/
def RespEvent.statusOf : RespEvent → Option Nat
  | .setHeader _ _ => none
  | .addHeader _ _ => none
  | .writeHeader s => some s
  | .writeJson _ => some 200
  | .writeBody _ => some 200
  | .restErr s _ => some s
  | .restErrInternal _ => some 500

/-- One invocation of an application or store collaborator. -/
inductive AppCall where
  | login (email pass : String)
  | signToken (tok : Token)
  | createUser (ctx : GoContext) (u : User)
  | createUserInternal (ctx : GoContext) (u : UserInternal)
  | getUser (ctx : GoContext) (id : String)
  | updateUser (ctx : GoContext) (id : String) (up : UserUpdate)
  | deleteTokens (ctx : GoContext) (tenantId userId : String)
  | saveSettings (ctx : GoContext) (s : Settings)
deriving Repr, DecidableEq

/-- The full observable behaviour of one handler run. -/
structure HandlerOut where
  events : List RespEvent
  calls : List AppCall
deriving Repr, DecidableEq

/-- All statuses written during the run, in order. -/
def HandlerOut.statuses (o : HandlerOut) : List Nat :=
  o.events.filterMap RespEvent.statusOf

/-- Whether a Location header was set or added during the run. -/
def HandlerOut.hasLocationHeader (o : HandlerOut) : Bool :=
  o.events.any fun e =>
    match e with
    | .setHeader k _ => k == "Location"
    | .addHeader k _ => k == "Location"
    | _ => false

/-- Outcome of DecodeJsonPayload followed by validation, the two stages of
the parse helpers: the decode step may fail, else validation may fail, else a
value is produced. -/
inductive ParseOutcome (α : Type) where
  | decodeErr (inner : GoError)
  | validateErr (e : GoError)
  | ok (v : α)
deriving Repr, DecidableEq

/-- parseUser: decode errors are wrapped with a fixed message
(errors.Wrap), validation errors are returned as-is. -/
def parseUser : ParseOutcome User → Except GoError User
  | .decodeErr inner => .error (.wrap "failed to decode request body" inner)
  | .validateErr e => .error e
  | .ok u => .ok u

/-- parseUserInternal: same shape as parseUser, for model.UserInternal. -/
def parseUserInternal : ParseOutcome UserInternal → Except GoError UserInternal
  | .decodeErr inner => .error (.wrap "failed to decode request body" inner)
  | .validateErr e => .error e
  | .ok u => .ok u

/-- parseUserUpdate: same shape as parseUser, for model.UserUpdate. -/
def parseUserUpdate : ParseOutcome UserUpdate → Except GoError UserUpdate
  | .decodeErr inner => .error (.wrap "failed to decode request body" inner)
  | .validateErr e => .error e
  | .ok u => .ok u

/-- getTenantContext: a nil context is replaced by background; a non-empty
tenant id is attached as an identity carrying only the Tenant field. -/
def getTenantContext (ctx : GoContext) (tenantId : String) : GoContext :=
  let ctx := if ctx = GoContext.nil then GoContext.background else ctx
  if tenantId ≠ "" then
    GoContext.withIdentity ctx { tenant := tenantId }
  else
    ctx

/-- AuthLoginHandler: basicAuth is the parsed Authorization header (none
when missing or unparsable); loginRes and signRes are the outcomes of the
application calls the handler makes at those points. -/
def authLoginHandler (basicAuth : Option (String × String))
    (loginRes : Except GoError Token) (signRes : Except GoError String) :
    HandlerOut :=
  match basicAuth with
  | none => ⟨[.restErr 401 .errAuthHeader], []⟩
  | some (email, pass) =>
    let lcall := AppCall.login email pass
    match loginRes with
    | .error e =>
      if e = .errUnauthorized ∨ e = .errTenantAccountSuspended then
        ⟨[.restErr 401 e], [lcall]⟩
      else
        ⟨[.restErrInternal e], [lcall]⟩
    | .ok tok =>
      match signRes with
      | .error e => ⟨[.restErrInternal e], [lcall, .signToken tok]⟩
      | .ok raw =>
        ⟨[.setHeader "Content-Type" "application/jwt", .writeBody raw],
         [lcall, .signToken tok]⟩

/-- CreateTenantUserHandler: body is parsed first; then the id path
parameter is checked; then the tenant context is attached and
CreateUserInternal is invoked with it. -/
def createTenantUserHandler (ctx : GoContext) (pathId : String)
    (body : ParseOutcome UserInternal) (createRes : Option GoError) :
    HandlerOut :=
  match parseUserInternal body with
  | .error e => ⟨[.restErr 400 e], []⟩
  | .ok user =>
    if pathId = "" then
      ⟨[.restErr 404 (.errMsg "Entity not found")], []⟩
    else
      let ctx2 := getTenantContext ctx pathId
      let call := AppCall.createUserInternal ctx2 user
      match createRes with
      | some e =>
        if e = .errDuplicateEmail then
          ⟨[.restErr 422 e], [call]⟩
        else
          ⟨[.restErrInternal e], [call]⟩
      | none => ⟨[.writeHeader 201], [call]⟩

/-- AddUserHandler: a parse failure equal to model.ErrPasswordTooShort gets
422, any other parse failure 400; then CreateUser is invoked, DuplicateEmail
gets 422, other failures are internal; success adds the Location header and
writes 201. -/
def addUserHandler (ctx : GoContext) (body : ParseOutcome User)
    (createRes : Option GoError) : HandlerOut :=
  match parseUser body with
  | .error e =>
    if e = .errPasswordTooShort then
      ⟨[.restErr 422 e], []⟩
    else
      ⟨[.restErr 400 e], []⟩
  | .ok user =>
    let call := AppCall.createUser ctx user
    match createRes with
    | some e =>
      if e = .errDuplicateEmail then
        ⟨[.restErr 422 e], [call]⟩
      else
        ⟨[.restErrInternal e], [call]⟩
    | none =>
      ⟨[.addHeader "Location" ("users/" ++ user.id), .writeHeader 201], [call]⟩

/-- GetUserHandler: any non-nil error from GetUser is internal; a nil user
with nil error is 404 with the api-level user-not-found error; otherwise the
user is serialized. -/
def getUserHandler (ctx : GoContext) (id : String)
    (ures : Option User) (uerr : Option GoError) : HandlerOut :=
  let call := AppCall.getUser ctx id
  match uerr with
  | some e => ⟨[.restErrInternal e], [call]⟩
  | none =>
    match ures with
    | none => ⟨[.restErr 404 .errApiUserNotFound], [call]⟩
    | some u => ⟨[.writeJson (.user u)], [call]⟩

/-- UpdateUserHandler: a parse failure equal to model.ErrPasswordTooShort
gets 422, any other parse failure 400; then UpdateUser is invoked and its
error is mapped by a switch; the Go source has no return after that switch,
so the trailing WriteHeader 204 runs on the failure paths as well. -/
def updateUserHandler (ctx : GoContext) (id : String)
    (body : ParseOutcome UserUpdate) (updRes : Option GoError) : HandlerOut :=
  match parseUserUpdate body with
  | .error e =>
    if e = .errPasswordTooShort then
      ⟨[.restErr 422 e], []⟩
    else
      ⟨[.restErr 400 e], []⟩
  | .ok upd =>
    let call := AppCall.updateUser ctx id upd
    match updRes with
    | some e =>
      let errEvt :=
        if e = .errDuplicateEmail then RespEvent.restErr 422 e
        else if e = .errStoreUserNotFound then RespEvent.restErr 404 e
        else RespEvent.restErrInternal e
      ⟨[errEvt, .writeHeader 204], [call]⟩
    | none => ⟨[.writeHeader 204], [call]⟩

/-- DeleteTokensHandler: an empty tenant_id query parameter is rejected with
400 before DeleteTokens is called; a nil result is 204; any error is
internal. -/
def deleteTokensHandler (ctx : GoContext) (tenantId userId : String)
    (delRes : Option GoError) : HandlerOut :=
  if tenantId = "" then
    ⟨[.restErr 400 (.errMsg "tenant_id must be provided")], []⟩
  else
    let call := AppCall.deleteTokens ctx tenantId userId
    match delRes with
    | none => ⟨[.writeHeader 204], [call]⟩
    | some e => ⟨[.restErrInternal e], [call]⟩

/-- SaveSettingsHandler: a decode failure is 400 and the store is not
called; on a decoded body SaveSettings is invoked; the Go source has no
return after the error branch, so the trailing WriteHeader 201 runs on the
failure path as well. -/
def saveSettingsHandler (ctx : GoContext) (decoded : Except GoError Settings)
    (saveRes : Option GoError) : HandlerOut :=
  match decoded with
  | .error _ =>
    ⟨[.restErr 400 (.errMsg "cannot parse request body as json")], []⟩
  | .ok settings =>
    let call := AppCall.saveSettings ctx settings
    match saveRes with
    | some e => ⟨[.restErrInternal e, .writeHeader 201], [call]⟩
    | none => ⟨[.writeHeader 201], [call]⟩

/-- C1: the claim that UpdateUser responds with exactly one status fails on
the code: the Go switch mapping the update error has no return after it, so
the trailing WriteHeader 204 also runs on every application-failure path.
At a DuplicateEmail failure the written statuses are [422, 204], at a
UserNotFound failure [404, 204], at an unclassified failure [500, 204];
only the success path writes the single status 204. -/
theorem C1_update_user_failure_also_writes_204 :
    (updateUserHandler .background "user0" (.ok {})
        (some .errDuplicateEmail)).statuses = [422, 204] ∧
    (updateUserHandler .background "user0" (.ok {})
        (some .errStoreUserNotFound)).statuses = [404, 204] ∧
    (updateUserHandler .background "user0" (.ok {})
        (some (.errMsg "db down"))).statuses = [500, 204] ∧
    (updateUserHandler .background "user0" (.ok {}) none).statuses = [204] :=
  ⟨rfl, rfl, rfl, rfl⟩

/-- C2 counterexample: on the CreateTenantUser entry point a password-policy
validation failure is answered with the generic 400, not the distinct 422
the claim requires of all three entry points. -/
theorem C2_counterexample_tenant_user_password_too_short :
    (createTenantUserHandler .background "tenant1"
        (.validateErr .errPasswordTooShort) none).statuses = [400] ∧
    422 ∉ (createTenantUserHandler .background "tenant1"
        (.validateErr .errPasswordTooShort) none).statuses := by
  refine ⟨rfl, ?_⟩
  simp [createTenantUserHandler, parseUserInternal, HandlerOut.statuses,
    RespEvent.statusOf]

/-- C2 (amended): a password-policy failure yields the distinct
PasswordTooShort kind with status 422, never 400, on the public CreateUser
path and on the UpdateUser path; on the internally-trusted CreateTenantUser
path every validation failure, password policy included, yields the generic
400. -/
theorem C2_password_policy_status (ctx : GoContext) (id pathId : String)
    (r1 r2 r3 : Option GoError) :
    (addUserHandler ctx (.validateErr .errPasswordTooShort) r1).statuses
      = [422] ∧
    (updateUserHandler ctx id (.validateErr .errPasswordTooShort) r2).statuses
      = [422] ∧
    (createTenantUserHandler ctx pathId (.validateErr .errPasswordTooShort)
        r3).statuses = [400] :=
  ⟨rfl, rfl, rfl⟩

/-- C3: a Login run failing with ErrUnauthorized and a Login run failing
with ErrTenantAccountSuspended write the same status list, namely [401], so
an unauthenticated caller cannot distinguish suspension from bad
credentials by status code. -/
theorem C3_login_suspension_same_status (email pass : String)
    (sr sr2 : Except GoError String) :
    (authLoginHandler (some (email, pass)) (.error .errUnauthorized)
        sr).statuses
      = (authLoginHandler (some (email, pass))
          (.error .errTenantAccountSuspended) sr2).statuses ∧
    (authLoginHandler (some (email, pass)) (.error .errUnauthorized)
        sr).statuses = [401] :=
  ⟨rfl, rfl⟩

/-- C4: CreateTenantUser writes 400 on a malformed or invalid body with no
application call, 404 on an empty tenant-id path parameter (checked only
after the body parses: a parse failure yields 400 even with an empty path
id), 422 on DuplicateEmail, 201 on success; and the single
CreateUserInternal call receives the context produced by getTenantContext,
which carries the path tenant id as its identity. -/
theorem C4_create_tenant_user_behaviour (ctx : GoContext)
    (u : UserInternal) :
    (∀ pathId inner res,
      (createTenantUserHandler ctx pathId (.decodeErr inner) res).statuses
          = [400] ∧
      (createTenantUserHandler ctx pathId (.decodeErr inner) res).calls
          = []) ∧
    (∀ pathId e res,
      (createTenantUserHandler ctx pathId (.validateErr e) res).statuses
          = [400] ∧
      (createTenantUserHandler ctx pathId (.validateErr e) res).calls = []) ∧
    (∀ res,
      (createTenantUserHandler ctx "" (.ok u) res).statuses = [404] ∧
      (createTenantUserHandler ctx "" (.ok u) res).calls = []) ∧
    (∀ pathId, pathId ≠ "" →
      (createTenantUserHandler ctx pathId (.ok u)
          (some .errDuplicateEmail)).statuses = [422] ∧
      (createTenantUserHandler ctx pathId (.ok u) none).statuses = [201] ∧
      (∀ res, (createTenantUserHandler ctx pathId (.ok u) res).calls
          = [.createUserInternal (getTenantContext ctx pathId) u]) ∧
      identityFromContext (getTenantContext ctx pathId)
          = some { tenant := pathId }) := by
  refine ⟨fun pathId inner res => ⟨rfl, rfl⟩,
    fun pathId e res => ⟨rfl, rfl⟩,
    fun res => ⟨rfl, rfl⟩,
    fun pathId hne => ?_⟩
  refine ⟨?_, ?_, fun res => ?_, ?_⟩
  · simp [createTenantUserHandler, parseUserInternal, hne,
      HandlerOut.statuses, RespEvent.statusOf]
  · simp [createTenantUserHandler, parseUserInternal, hne,
      HandlerOut.statuses, RespEvent.statusOf]
  · cases res with
    | none => simp [createTenantUserHandler, parseUserInternal, hne]
    | some e =>
      by_cases he : e = GoError.errDuplicateEmail <;>
        simp [createTenantUserHandler, parseUserInternal, hne, he]
  · simp [getTenantContext, identityFromContext, hne]

/-- C4 witness: instantiation at a concrete non-empty tenant id. -/
theorem C4_create_tenant_user_behaviour_witness :
    ("t1" : String) ≠ "" ∧
    (createTenantUserHandler .background "t1" (.ok {}) none).statuses
        = [201] :=
  ⟨by decide,
    (((C4_create_tenant_user_behaviour .background {}).2.2.2 "t1"
        (by decide)).2.1)⟩

/-- C5: the claim that no success status is written when SaveSettings fails
does not hold on the code: the error branch lacks a return, so the trailing
WriteHeader 201 also runs, giving statuses [500, 201].  The decode-failure
part does hold: an unparsable body yields [400] and the store is never
called, and a clean save yields the single status 201. -/
theorem C5_save_settings_failure_also_writes_201 :
    (saveSettingsHandler .background (.ok [])
        (some (.errMsg "db down"))).statuses = [500, 201] ∧
    (saveSettingsHandler .background (.error (.errMsg "bad json"))
        none).statuses = [400] ∧
    (saveSettingsHandler .background (.error (.errMsg "bad json"))
        none).calls = [] ∧
    (saveSettingsHandler .background (.ok []) none).statuses = [201] :=
  ⟨rfl, rfl, rfl, rfl⟩

/-- C6: DeleteTokens rejects an empty tenant_id with 400 before any
revocation call; with a non-empty tenant_id a nil result is 204 for every
user_id, the empty user_id included, and never 404; any error is surfaced
as the generic internal 500. -/
theorem C6_delete_tokens_behaviour (ctx : GoContext) (userId : String) :
    (∀ res, (deleteTokensHandler ctx "" userId res).statuses = [400] ∧
      (deleteTokensHandler ctx "" userId res).calls = []) ∧
    (∀ tenantId, tenantId ≠ "" →
      (deleteTokensHandler ctx tenantId userId none).statuses = [204] ∧
      404 ∉ (deleteTokensHandler ctx tenantId userId none).statuses ∧
      (∀ e, (deleteTokensHandler ctx tenantId userId (some e)).statuses
          = [500]) ∧
      (deleteTokensHandler ctx tenantId userId none).calls
          = [.deleteTokens ctx tenantId userId]) := by
  refine ⟨fun res => ?_, fun tenantId hne => ?_⟩
  · cases res <;>
      simp [deleteTokensHandler, HandlerOut.statuses, RespEvent.statusOf]
  · refine ⟨?_, ?_, fun e => ?_, ?_⟩ <;>
      simp [deleteTokensHandler, HandlerOut.statuses, RespEvent.statusOf, hne]

/-- C6 witness: instantiation at a concrete non-empty tenant id and an
empty user id. -/
theorem C6_delete_tokens_behaviour_witness :
    ("acme" : String) ≠ "" ∧
    (deleteTokensHandler .background "acme" "" none).statuses = [204] :=
  ⟨by decide,
    ((C6_delete_tokens_behaviour .background "").2 "acme" (by decide)).1⟩

/-- C7: GetUser answers 404 with the user-not-found error exactly when the
application returned a nil user and a nil error; a non-nil user is
serialized with the implicit 200; every non-nil error, the store's
not-found sentinel included, is surfaced as the internal 500, never 404. -/
theorem C7_get_user_behaviour (ctx : GoContext) (id : String) :
    (∀ e ures, (getUserHandler ctx id ures (some e)).events
        = [.restErrInternal e] ∧
      (getUserHandler ctx id ures (some e)).statuses = [500]) ∧
    ((getUserHandler ctx id none none).events
        = [.restErr 404 .errApiUserNotFound]) ∧
    (∀ u, (getUserHandler ctx id (some u) none).events
        = [.writeJson (.user u)] ∧
      (getUserHandler ctx id (some u) none).statuses = [200]) ∧
    (∀ ures uerr, 404 ∈ (getUserHandler ctx id ures uerr).statuses
        ↔ ures = none ∧ uerr = none) := by
  refine ⟨fun e ures => ⟨rfl, rfl⟩, rfl, fun u => ⟨rfl, rfl⟩,
    fun ures uerr => ?_⟩
  cases uerr <;> cases ures <;>
    simp [getUserHandler, HandlerOut.statuses, RespEvent.statusOf]

/-- C8: a successful public CreateUser adds a Location header whose value is
the literal prefix users/ followed by the created id and then writes 201; a
DuplicateEmail failure writes only 422 and no Location header. -/
theorem C8_add_user_location (ctx : GoContext) (u : User) :
    (addUserHandler ctx (.ok u) none).events
        = [.addHeader "Location" ("users/" ++ u.id), .writeHeader 201] ∧
    (addUserHandler ctx (.ok u) none).statuses = [201] ∧
    (addUserHandler ctx (.ok u) (some .errDuplicateEmail)).statuses
        = [422] ∧
    (addUserHandler ctx (.ok u)
        (some .errDuplicateEmail)).hasLocationHeader = false :=
  ⟨rfl, rfl, rfl, rfl⟩

/-- C9: a missing or unparsable credential header yields 401 with no
application call at all; a successful Login and SignToken yield the
Content-Type application/jwt header and the raw token body with the
implicit 200; a SignToken failure is the internal 500, not 401. -/
theorem C9_login_behaviour (email pass raw : String) (tok : Token)
    (e : GoError) :
    (∀ lr sr, (authLoginHandler none lr sr).events
        = [.restErr 401 .errAuthHeader] ∧
      (authLoginHandler none lr sr).calls = []) ∧
    ((authLoginHandler (some (email, pass)) (.ok tok) (.ok raw)).events
        = [.setHeader "Content-Type" "application/jwt", .writeBody raw] ∧
      (authLoginHandler (some (email, pass)) (.ok tok) (.ok raw)).statuses
        = [200] ∧
      (authLoginHandler (some (email, pass)) (.ok tok) (.ok raw)).calls
        = [.login email pass, .signToken tok]) ∧
    ((authLoginHandler (some (email, pass)) (.ok tok) (.error e)).statuses
        = [500]) :=
  ⟨fun _ _ => ⟨rfl, rfl⟩, ⟨rfl, rfl, rfl⟩, rfl⟩

/-- C10: getTenantContext is a total function; a non-empty tenant id is
attached as the identity of the returned context with exactly that Tenant
field; an empty tenant id returns the input context unchanged when it is
not nil; a nil input is replaced by the background context before any
identity is attached. -/
theorem C10_get_tenant_context (ctx : GoContext) (tenantId : String) :
    (tenantId ≠ "" →
      getTenantContext ctx tenantId
        = .withIdentity (if ctx = .nil then .background else ctx)
            { tenant := tenantId } ∧
      identityFromContext (getTenantContext ctx tenantId)
        = some { tenant := tenantId }) ∧
    (tenantId = "" → ctx ≠ .nil → getTenantContext ctx tenantId = ctx) ∧
    (tenantId = "" → getTenantContext .nil tenantId = .background) ∧
    (ctx = .nil →
      getTenantContext ctx tenantId
        = getTenantContext .background tenantId) := by
  refine ⟨fun hne => ?_, fun he hctx => ?_, fun he => ?_, fun hnil => ?_⟩
  · constructor <;> simp [getTenantContext, identityFromContext, hne]
  · simp [getTenantContext, he, hctx]
  · simp [getTenantContext, he]
  · subst hnil
    simp [getTenantContext]

/-- C10 witness: instantiation at a concrete request context and a concrete
non-empty tenant id. -/
theorem C10_get_tenant_context_witness :
    ("t1" : String) ≠ "" ∧
    identityFromContext (getTenantContext (.other "req") "t1")
        = some { tenant := "t1" } :=
  ⟨by decide,
    ((C10_get_tenant_context (.other "req") "t1").1 (by decide)).2⟩

end Useradm
